import Mathlib

/-!
Verification of the OralB BLE advertisement parser
(`src/oralb_ble/parser.py`) against its natural-language specification.

The Python module is a single-stage decoder: a manufacturer filter
(`_start_update`), a frame decoder (`_process_mfr_data`), lookup tables
(`STATES`, `PRESSURE`, `DEVICE_TYPES`) and the constant
`ORALB_MANUFACTURER`.  Bytes are modelled as `Nat` (Python `bytes`
elements are 0–255), byte strings as `List Nat`, and Python dicts as
association lists whose keys are pairwise distinct.  Fallible Python
behaviour (the `TypeError` raised when a dict is probed with an
unhashable key) is modelled with `Except`.
-/

/-- Python errors that the embedded code can raise. -/
inductive PyErr where
  | typeError
  | keyError
  deriving DecidableEq, Repr

/-- Embedding of `struct.Struct(">BBHBBBB").unpack` (line 25 of the source): requires
exactly 8 bytes and yields seven unsigned fields, the third one a
big-endian two-byte value. -/
def UNPACK_BBHBBBB (l : List Nat) :
    Option (Nat × Nat × Nat × Nat × Nat × Nat × Nat) :=
  if h : l.length = 8 then
    some (l.get ⟨0, by omega⟩, l.get ⟨1, by omega⟩,
          l.get ⟨2, by omega⟩ * 256 + l.get ⟨3, by omega⟩,
          l.get ⟨4, by omega⟩, l.get ⟨5, by omega⟩,
          l.get ⟨6, by omega⟩, l.get ⟨7, by omega⟩)
  else
    none

/-- The `Models` enum of the source. -/
inductive Models where
  | IOSerial7
  | SmartSeries7000
  deriving DecidableEq, Repr

/-- The `ModelDescription` dataclass of the source. -/
structure ModelDescription where
  device_type : String
  modes : List (Nat × String)
  deriving DecidableEq, Repr

/-- The `DEVICE_TYPES` dict of the source (lines 41–67), as a total map
on the closed enum. -/
def DEVICE_TYPES : Models → ModelDescription
  | Models.IOSerial7 =>
    { device_type := "IO Serial 7",
      modes := [(0, "daily clean"), (1, "sensitive"), (2, "gum care"),
                (3, "whiten"), (4, "intense"), (8, "settings")] }
  | Models.SmartSeries7000 =>
    { device_type := "Smart Series 7000",
      modes := [(0, "off"), (1, "daily clean"), (2, "sensitive"),
                (3, "massage"), (4, "whitening"), (5, "deep clean"),
                (6, "tongue cleaning"), (7, "turbo"), (255, "unknown")] }

/-- The `STATES` dict of the source (lines 70–83). -/
def STATES : List (Nat × String) :=
  [(0, "unknown"), (1, "initializing"), (2, "idle"), (3, "running"),
   (4, "charging"), (5, "setup"), (6, "flight menu"), (8, "selection menu"),
   (113, "final test"), (114, "pcb test"), (115, "sleeping"),
   (116, "transport")]

/-- The `PRESSURE` dict of the source (line 85). -/
def PRESSURE : List (Nat × String) :=
  [(114, "normal"), (118, "button pressed"), (178, "high")]

/-- Python dict lookup on an association list: the value stored under an
integer key, when present. -/
def lookup? (d : List (Nat × String)) (k : Nat) : Option String :=
  match d.find? (fun p => p.1 == k) with
  | some p => some p.2
  | none => none

/-- Python `dict.get(k, default)`. -/
def dictGet (d : List (Nat × String)) (k : Nat) (dflt : String) : String :=
  match lookup? d k with
  | some v => v
  | none => dflt

/-- A Python dict probe key: the source probes `manufacturer_data` (a
`dict[int, bytes]`) either with an `int` or — as actually written on
line 101 — with a `set`. -/
inductive PyKey where
  | int (n : Nat)
  | set (s : List Nat)
  deriving DecidableEq, Repr

/-- The constant `ORALB_MANUFACTURER` (line 88 of the source): a Python
set literal containing the single element `0x00DC`. -/
def ORALB_MANUFACTURER : PyKey := PyKey.set [0x00DC]

/-- Python `key in d` for a `dict[int, bytes]`: an `int` key is hashed
and compared; a `set` is unhashable, so the membership test raises
`TypeError`. -/
def dictContainsKey (d : List (Nat × List Nat)) (k : PyKey) :
    Except PyErr Bool :=
  match k with
  | PyKey.int n => Except.ok (d.any (fun p => p.1 == n))
  | PyKey.set _ => Except.error PyErr.typeError

/-- Python `d[key]` for a `dict[int, bytes]`: a `set` key again raises
`TypeError`; a missing `int` key raises `KeyError`. -/
def dictGetKey (d : List (Nat × List Nat)) (k : PyKey) :
    Except PyErr (List Nat) :=
  match k with
  | PyKey.int n =>
    match d.find? (fun p => p.1 == n) with
    | some p => Except.ok p.2
    | none => Except.error PyErr.keyError
  | PyKey.set _ => Except.error PyErr.typeError

/-- The advertisement record handed to `_start_update`:
`BluetoothServiceInfo` exposes an address, a local name, and a
`dict[int, bytes]` of manufacturer data. -/
structure BluetoothServiceInfo where
  address : String
  name : String
  manufacturer_data : List (Nat × List Nat)
  deriving DecidableEq, Repr

/-- The decoded `result` dict built by `_process_mfr_data`
(lines 129–169): the eight snapshot measurements. -/
structure Snapshot where
  toothbrush : Nat
  toothbrush_state : String
  pressure : String
  counter : Nat
  mode : String
  sector : String
  sector_timer : Nat
  no_of_sectors : Nat
  deriving DecidableEq, Repr

/-- The device-identity side effects of `_process_mfr_data`
(`set_device_type`, `set_device_name`, `set_title`, lines 143–146). -/
structure DeviceUpdate where
  device_type : String
  device_name : String
  title : String
  deriving DecidableEq, Repr

/-- The caller-provided mutable sensor context (`BluetoothData`): the
identity fields the parser can set, plus the snapshot it decodes. -/
structure DeviceCtx where
  manufacturer : Option String
  device_type : Option String
  device_name : Option String
  title : Option String
  snapshot : Option Snapshot
  deriving DecidableEq, Repr

/-- A fresh context: nothing set yet. -/
def initialCtx : DeviceCtx :=
  { manufacturer := none, device_type := none, device_name := none,
    title := none, snapshot := none }

/-- Modelled from the external `bluetooth_data_tools` dependency (not
part of this repository): `short_address` is a deterministic shortened
rendering of the address string (its last four hex characters,
colon-stripped and uppercased). -/
def short_address (address : String) : String :=
  let s := (address.replace ":" "").toUpper
  s.drop (s.length - 4)

/-- The model signature test of lines 135–139: `data[4:7] == b"\x062k"`
(the byte triplet `0x06 0x32 0x6B`) selects `IOSerial7`, anything else
`SmartSeries7000`. -/
def modelSig (device_bytes : List Nat) : Models :=
  if device_bytes = [0x06, 0x32, 0x6B] then Models.IOSerial7
  else Models.SmartSeries7000

/-- Embedding of `_process_mfr_data` (lines 108–170): length gate, unpack of
`data[3:11]`, model classification from `data[4:7]`, label resolution
and snapshot assembly.  Returns the identity updates together with the
decoded snapshot, or `none` when the length gate fails. -/
def processMfrData (address : String) (data : List Nat) :
    Option (DeviceUpdate × Snapshot) :=
  if data.length ≠ 11 then
    none
  else
    match UNPACK_BBHBBBB (List.take 8 (List.drop 3 data)) with
    | none => none
    | some (state, pressure, counter, mode, sector, sector_timer,
            no_of_sectors) =>
      let toothbrush : Nat := if state = 3 then 1 else 0
      let device_bytes := List.take 3 (List.drop 4 data)
      let model := modelSig device_bytes
      let model_info := DEVICE_TYPES model
      let modes := model_info.modes
      let name := model_info.device_type ++ " " ++ short_address address
      let tb_state := dictGet STATES state ("unknown state " ++ toString state)
      let tb_mode := dictGet modes mode ("unknown mode " ++ toString mode)
      let tb_pressure :=
        dictGet PRESSURE pressure ("unknown pressure " ++ toString pressure)
      let tb_sector :=
        if sector = 254 then "last sector"
        else if sector = 255 then "no sector"
        else "sector " ++ toString sector
      some ({ device_type := model_info.device_type, device_name := name,
              title := name },
            { toothbrush := toothbrush, toothbrush_state := tb_state,
              pressure := tb_pressure, counter := counter, mode := tb_mode,
              sector := tb_sector, sector_timer := sector_timer,
              no_of_sectors := no_of_sectors })

/-- Embedding of `_start_update` (lines 94–106): sets the manufacturer name, then
probes `manufacturer_data` with `ORALB_MANUFACTURER`.  Because the
constant is a set, the probe raises `TypeError` in Python; the raised
error is returned alongside the context as mutated so far. -/
def startUpdate (si : BluetoothServiceInfo) (ctx : DeviceCtx) :
    DeviceCtx × Except PyErr Unit :=
  let ctx1 := { ctx with manufacturer := some "OralB" }
  match dictContainsKey si.manufacturer_data ORALB_MANUFACTURER with
  | Except.error e => (ctx1, Except.error e)
  | Except.ok contains =>
    if !contains then
      (ctx1, Except.ok ())
    else
      match dictGetKey si.manufacturer_data ORALB_MANUFACTURER with
      | Except.error e => (ctx1, Except.error e)
      | Except.ok mfr_data =>
        match processMfrData si.address mfr_data with
        | none => (ctx1, Except.ok ())
        | some (u, s) =>
          ({ ctx1 with device_type := some u.device_type,
                       device_name := some u.device_name,
                       title := some u.title, snapshot := some s },
           Except.ok ())

/-- Closed form of `processMfrData` on an explicit 11-byte payload. -/
lemma processMfrData_eleven (addr : String)
    (b0 b1 b2 b3 b4 b5 b6 b7 b8 b9 b10 : Nat) :
    processMfrData addr [b0, b1, b2, b3, b4, b5, b6, b7, b8, b9, b10] =
      some ({ device_type := (DEVICE_TYPES (modelSig [b4, b5, b6])).device_type,
              device_name := (DEVICE_TYPES (modelSig [b4, b5, b6])).device_type
                ++ " " ++ short_address addr,
              title := (DEVICE_TYPES (modelSig [b4, b5, b6])).device_type
                ++ " " ++ short_address addr },
            { toothbrush := if b3 = 3 then 1 else 0,
              toothbrush_state :=
                dictGet STATES b3 ("unknown state " ++ toString b3),
              pressure :=
                dictGet PRESSURE b4 ("unknown pressure " ++ toString b4),
              counter := b5 * 256 + b6,
              mode := dictGet (DEVICE_TYPES (modelSig [b4, b5, b6])).modes b7
                ("unknown mode " ++ toString b7),
              sector := if b8 = 254 then "last sector"
                else if b8 = 255 then "no sector"
                else "sector " ++ toString b8,
              sector_timer := b9, no_of_sectors := b10 }) := by
  rfl

/-- Any list of length 11 is an explicit eleven-element list. -/
lemma exists_eleven (data : List Nat) (h : data.length = 11) :
    ∃ b0 b1 b2 b3 b4 b5 b6 b7 b8 b9 b10,
      data = [b0, b1, b2, b3, b4, b5, b6, b7, b8, b9, b10] := by
  rcases data with _ | ⟨b0, data⟩; · simp at h
  rcases data with _ | ⟨b1, data⟩; · simp at h
  rcases data with _ | ⟨b2, data⟩; · simp at h
  rcases data with _ | ⟨b3, data⟩; · simp at h
  rcases data with _ | ⟨b4, data⟩; · simp at h
  rcases data with _ | ⟨b5, data⟩; · simp at h
  rcases data with _ | ⟨b6, data⟩; · simp at h
  rcases data with _ | ⟨b7, data⟩; · simp at h
  rcases data with _ | ⟨b8, data⟩; · simp at h
  rcases data with _ | ⟨b9, data⟩; · simp at h
  rcases data with _ | ⟨b10, data⟩; · simp at h
  rcases data with _ | ⟨b11, data⟩
  · exact ⟨b0, b1, b2, b3, b4, b5, b6, b7, b8, b9, b10, rfl⟩
  · simp at h

/-- Claim C3: for every vendor-tagged byte sequence whose length is not
exactly 11, decoding terminates silently with no snapshot and no error;
for sequences of length exactly 11, a complete snapshot is produced. -/
theorem processMfrData_length_gate :
    (∀ (addr : String) (data : List Nat), data.length ≠ 11 →
      processMfrData addr data = none) ∧
    (∀ (addr : String) (data : List Nat), data.length = 11 →
      (processMfrData addr data).isSome = true) := by
  constructor
  · intro addr data h
    simp [processMfrData, h]
  · intro addr data h
    obtain ⟨b0, b1, b2, b3, b4, b5, b6, b7, b8, b9, b10, rfl⟩ :=
      exists_eleven data h
    rw [processMfrData_eleven]
    rfl

/-- Witness for C3 at concrete inputs: a 3-byte payload yields no
snapshot, an 11-byte payload yields one. -/
theorem processMfrData_length_gate_witness :
    processMfrData "78:DB:2F:C2:48:BE" [1, 2, 3] = none ∧
    (processMfrData "78:DB:2F:C2:48:BE"
      [0, 0, 0, 3, 110, 4, 0, 1, 0, 1, 5]).isSome = true :=
  ⟨processMfrData_length_gate.1 "78:DB:2F:C2:48:BE" [1, 2, 3] (by decide),
   processMfrData_length_gate.2 "78:DB:2F:C2:48:BE"
     [0, 0, 0, 3, 110, 4, 0, 1, 0, 1, 5] (by decide)⟩

/-- Claim C4: on a valid 11-byte payload, bytes 3 through 10 are
unpacked big-endian as state, pressure, counter (two bytes), mode,
sector, sector timer and number of sectors, and the numeric snapshot
fields counter, sector timer and number of sectors equal exactly these
unpacked values; with byte values below 256 the counter lies in
0–65535. -/
theorem processMfrData_unpack_fields (addr : String)
    (b0 b1 b2 b3 b4 b5 b6 b7 b8 b9 b10 : Nat)
    (h5 : b5 < 256) (h6 : b6 < 256) :
    UNPACK_BBHBBBB
        (List.take 8 (List.drop 3 [b0, b1, b2, b3, b4, b5, b6, b7, b8, b9, b10]))
      = some (b3, b4, b5 * 256 + b6, b7, b8, b9, b10) ∧
    (processMfrData addr [b0, b1, b2, b3, b4, b5, b6, b7, b8, b9, b10]).map
        (fun r => (r.2.counter, r.2.sector_timer, r.2.no_of_sectors))
      = some (b5 * 256 + b6, b9, b10) ∧
    b5 * 256 + b6 ≤ 65535 := by
  refine ⟨rfl, ?_, by omega⟩
  rw [processMfrData_eleven]
  rfl

/-- Witness for C4 at a concrete payload. -/
theorem processMfrData_unpack_fields_witness :
    UNPACK_BBHBBBB
        (List.take 8 (List.drop 3 [0, 0, 0, 2, 114, 1, 44, 3, 2, 30, 4]))
      = some (2, 114, 1 * 256 + 44, 3, 2, 30, 4) ∧
    (processMfrData "78:DB:2F:C2:48:BE"
        [0, 0, 0, 2, 114, 1, 44, 3, 2, 30, 4]).map
        (fun r => (r.2.counter, r.2.sector_timer, r.2.no_of_sectors))
      = some (1 * 256 + 44, 30, 4) ∧
    1 * 256 + 44 ≤ 65535 :=
  processMfrData_unpack_fields "78:DB:2F:C2:48:BE"
    0 0 0 2 114 1 44 3 2 30 4 (by decide) (by decide)

/-- Claim C5: on a valid 11-byte payload the device model is a function
of bytes 4 through 6 only: `IOSerial7` exactly when the triplet is
`0x06, 0x32, 0x6B`, `SmartSeries7000` for every other triplet, and no
third model exists. -/
theorem processMfrData_model_class (addr : String)
    (b0 b1 b2 b3 b4 b5 b6 b7 b8 b9 b10 : Nat) :
    (processMfrData addr [b0, b1, b2, b3, b4, b5, b6, b7, b8, b9, b10]).map
        (fun r => r.1.device_type)
      = some (DEVICE_TYPES (modelSig [b4, b5, b6])).device_type ∧
    (modelSig [b4, b5, b6] = Models.IOSerial7 ↔
      (b4 = 0x06 ∧ b5 = 0x32 ∧ b6 = 0x6B)) ∧
    (∀ m : Models, m = Models.IOSerial7 ∨ m = Models.SmartSeries7000) := by
  refine ⟨?_, ?_, ?_⟩
  · rw [processMfrData_eleven]
    rfl
  · have hlist : ([b4, b5, b6] = [0x06, 0x32, 0x6B]) ↔
        (b4 = 0x06 ∧ b5 = 0x32 ∧ b6 = 0x6B) := by
      simp
    rw [← hlist]
    by_cases h : [b4, b5, b6] = [0x06, 0x32, 0x6B]
    · simp [modelSig, h]
    · simp [modelSig, h]
  · intro m
    cases m
    · exact Or.inl rfl
    · exact Or.inr rfl

/-- Claim C6: on a valid 11-byte payload the toothbrush measurement is 1
exactly when the decoded state byte equals 3, and 0 otherwise. -/
theorem processMfrData_toothbrush_flag (addr : String)
    (b0 b1 b2 b3 b4 b5 b6 b7 b8 b9 b10 : Nat) :
    (processMfrData addr [b0, b1, b2, b3, b4, b5, b6, b7, b8, b9, b10]).map
        (fun r => r.2.toothbrush)
      = some (if b3 = 3 then 1 else 0) := by
  rw [processMfrData_eleven]
  rfl

/-- Claim C8: on a valid 11-byte payload the sector label is
"last sector" when the sector byte is 254, "no sector" when it is 255,
and "sector " followed by the value otherwise. -/
theorem processMfrData_sector_label (addr : String)
    (b0 b1 b2 b3 b4 b5 b6 b7 b8 b9 b10 : Nat) :
    (processMfrData addr [b0, b1, b2, b3, b4, b5, b6, b7, b8, b9, b10]).map
        (fun r => r.2.sector)
      = some (if b8 = 254 then "last sector"
              else if b8 = 255 then "no sector"
              else "sector " ++ toString b8) := by
  rw [processMfrData_eleven]
  rfl

/-- A `dict.get` falls back to its default exactly when the key is
absent. -/
lemma dictGet_none (d : List (Nat × String)) (k : Nat) (dflt : String)
    (h : lookup? d k = none) : dictGet d k dflt = dflt := by
  simp [dictGet, h]

/-- Claim C7: on a valid 11-byte payload, a state, pressure or mode code
absent from its lookup table resolves to the synthesized label
"unknown state/pressure/mode " followed by the code, and decoding still
completes with a full snapshot. -/
theorem processMfrData_unknown_labels (addr : String)
    (b0 b1 b2 b3 b4 b5 b6 b7 b8 b9 b10 : Nat) :
    (processMfrData addr [b0, b1, b2, b3, b4, b5, b6, b7, b8, b9, b10]).isSome
        = true ∧
    (lookup? STATES b3 = none →
      (processMfrData addr [b0, b1, b2, b3, b4, b5, b6, b7, b8, b9, b10]).map
          (fun r => r.2.toothbrush_state)
        = some ("unknown state " ++ toString b3)) ∧
    (lookup? PRESSURE b4 = none →
      (processMfrData addr [b0, b1, b2, b3, b4, b5, b6, b7, b8, b9, b10]).map
          (fun r => r.2.pressure)
        = some ("unknown pressure " ++ toString b4)) ∧
    (lookup? (DEVICE_TYPES (modelSig [b4, b5, b6])).modes b7 = none →
      (processMfrData addr [b0, b1, b2, b3, b4, b5, b6, b7, b8, b9, b10]).map
          (fun r => r.2.mode)
        = some ("unknown mode " ++ toString b7)) := by
  refine ⟨?_, ?_, ?_, ?_⟩
  · rw [processMfrData_eleven]; rfl
  · intro h
    rw [processMfrData_eleven]
    exact congrArg some (dictGet_none _ _ _ h)
  · intro h
    rw [processMfrData_eleven]
    exact congrArg some (dictGet_none _ _ _ h)
  · intro h
    rw [processMfrData_eleven]
    exact congrArg some (dictGet_none _ _ _ h)

/-- Witness for C7: state code 7, pressure code 0 and mode code 9 are
absent from their tables and resolve to the synthesized labels. -/
theorem processMfrData_unknown_labels_witness :
    (processMfrData "78:DB:2F:C2:48:BE"
        [0, 0, 0, 7, 0, 0, 0, 9, 0, 0, 0]).isSome = true ∧
    (processMfrData "78:DB:2F:C2:48:BE"
        [0, 0, 0, 7, 0, 0, 0, 9, 0, 0, 0]).map (fun r => r.2.toothbrush_state)
      = some ("unknown state " ++ toString 7) ∧
    (processMfrData "78:DB:2F:C2:48:BE"
        [0, 0, 0, 7, 0, 0, 0, 9, 0, 0, 0]).map (fun r => r.2.pressure)
      = some ("unknown pressure " ++ toString 0) ∧
    (processMfrData "78:DB:2F:C2:48:BE"
        [0, 0, 0, 7, 0, 0, 0, 9, 0, 0, 0]).map (fun r => r.2.mode)
      = some ("unknown mode " ++ toString 9) := by
  have h := processMfrData_unknown_labels "78:DB:2F:C2:48:BE"
    0 0 0 7 0 0 0 9 0 0 0
  exact ⟨h.1, h.2.1 (by decide), h.2.2.1 (by decide), h.2.2.2 (by decide)⟩

/-- Claim C9 counterexample: the state table does not have 11 entries
(it has 12), so the claimed table sizes are false. -/
theorem states_eleven_refuted :
    ¬ (STATES.length = 11 ∧ PRESSURE.length = 3) := by
  decide

/-- Claim C9 amended: the state table has exactly 12 entries and the
pressure table exactly 3, with pairwise-distinct keys in each. -/
theorem states_twelve_pressure_three :
    STATES.length = 12 ∧ PRESSURE.length = 3 ∧
    (STATES.map Prod.fst).Nodup ∧ (PRESSURE.map Prod.fst).Nodup := by
  decide

/-- Claim C10: on a valid 11-byte payload classified as `IOSerial7`, the
signature bytes coincide with the pressure byte and the counter bytes,
so the snapshot necessarily carries pressure label "unknown pressure 6"
and counter 12907. -/
theorem ioserial7_pressure_counter (addr : String)
    (b0 b1 b2 b3 b4 b5 b6 b7 b8 b9 b10 : Nat)
    (h : modelSig [b4, b5, b6] = Models.IOSerial7) :
    (processMfrData addr [b0, b1, b2, b3, b4, b5, b6, b7, b8, b9, b10]).map
        (fun r => (r.2.pressure, r.2.counter))
      = some ("unknown pressure 6", 12907) := by
  have hb : [b4, b5, b6] = [0x06, 0x32, 0x6B] := by
    by_contra hne
    simp [modelSig, hne] at h
  obtain ⟨rfl, rfl, rfl⟩ : b4 = 0x06 ∧ b5 = 0x32 ∧ b6 = 0x6B := by
    simpa using hb
  rw [processMfrData_eleven]
  rfl

/-- Witness for C10 at a concrete `IOSerial7` payload. -/
theorem ioserial7_pressure_counter_witness :
    (processMfrData "78:DB:2F:C2:48:BE"
        [0, 0, 0, 3, 6, 50, 107, 1, 2, 30, 8]).map
        (fun r => (r.2.pressure, r.2.counter))
      = some ("unknown pressure 6", 12907) :=
  ioserial7_pressure_counter "78:DB:2F:C2:48:BE"
    0 0 0 3 6 50 107 1 2 30 8 (by decide)

/-- Claim C1 (code bug): the source probes `manufacturer_data` with the
set `{0x00DC}` rather than the integer `0x00DC`, so even a record that
does carry the vendor key 0x00DC is never decoded: the membership test
raises `TypeError` and no payload reaches the frame decoder. -/
theorem startUpdate_raises_on_vendor_key :
    startUpdate
        { address := "78:DB:2F:C2:48:BE", name := "Toothbrush",
          manufacturer_data := [(0x00DC, [0, 0, 0, 3, 110, 4, 0, 1, 0, 1, 5])] }
        initialCtx
      = ({ initialCtx with manufacturer := some "OralB" },
         Except.error PyErr.typeError) := by
  rfl

/-- Claim C2 counterexample: on a record whose manufacturer-data mapping
is empty, the decode call neither leaves the context untouched nor
terminates normally — the manufacturer name is set to "OralB" and the
set-valued probe then raises `TypeError`. -/
theorem startUpdate_vendor_absent_refuted :
    ¬ ((startUpdate
          { address := "78:DB:2F:C2:48:BE", name := "Toothbrush",
            manufacturer_data := [] } initialCtx).1 = initialCtx ∧
       (startUpdate
          { address := "78:DB:2F:C2:48:BE", name := "Toothbrush",
            manufacturer_data := [] } initialCtx).2 = Except.ok ()) := by
  intro hcl
  have hman := congrArg DeviceCtx.manufacturer hcl.1
  simp [startUpdate, initialCtx, ORALB_MANUFACTURER, dictContainsKey] at hman

/-- Claim C2 amended: for every advertisement record — the vendor key
present or not — the decode call produces no snapshot and sets no device
type, device name or title, but it does set the manufacturer name to
"OralB" and then terminates with a `TypeError` raised by the set-valued
dict probe. -/
theorem startUpdate_sets_manufacturer_raises (si : BluetoothServiceInfo)
    (ctx : DeviceCtx) :
    startUpdate si ctx
      = ({ ctx with manufacturer := some "OralB" },
         Except.error PyErr.typeError) := by
  rfl
